import Mathlib

/-!
Shallow embedding of `crankshaft-docker`'s `Container` operations
(`src/crankshaft-docker/src/container.rs`): `upload_file`, `run`,
`remove` / `force_remove`.

The container engine (bollard / Docker) is an external collaborator; it is
modelled as an oracle structure whose fields give the responses the engine
would produce for this container's identity. Byte buffers are `List Nat`,
Rust `i64` values are `Int`, and the 32-bit casts performed during exit
status synthesis are made explicit with `% 2^32` arithmetic.
-/

namespace Crankshaft

/-- A byte buffer (`Vec<u8>` / `&[u8]`). -/
abbrev Bytes := List Nat

/-- `bollard::container::LogOutput`: one chunk from the attached log
stream, tagged with its originating stream. -/
inductive LogOutput where
  | stdIn (message : Bytes)
  | stdOut (message : Bytes)
  | stdErr (message : Bytes)
  | console (message : Bytes)
deriving DecidableEq, Repr

/-- `bollard::errors::Error`: the engine/transport error type. The variant
`dockerContainerWaitError` (with its `error` message and `code`) is the one
`Container::run` pattern-matches on; every other variant of the real enum is
collapsed into `other`. -/
inductive BollardError where
  | dockerContainerWaitError (error : String) (code : Int)
  | other (msg : String)
deriving DecidableEq, Repr

/-- Modelled from the spec: the crate-level `Error` type
(`crankshaft-docker`'s `error.rs` is not under `src/`); per the spec every
engine failure is "surfaced as an engine error", and the code wraps each
one with `Error::Docker` (also via `e.into()`). -/
inductive Error where
  | docker (e : BollardError)
deriving DecidableEq, Repr

/-- `bollard::secret::ContainerWaitResponse` (the fields `run` uses). -/
structure ContainerWaitResponse where
  status_code : Int
deriving DecidableEq, Repr

/-- `ContainerState` as consumed by `run`'s inspect fallback. -/
structure ContainerState where
  exit_code : Option Int
deriving DecidableEq, Repr

/-- The inspect response as consumed by `run`'s inspect fallback. -/
structure ContainerInspectResponse where
  state : Option ContainerState
deriving DecidableEq, Repr

/-- The engine oracle: the responses the external Docker engine gives for
this container's identity during one `run` call. `attach` is a function of
the two stream-selection flags passed in `AttachContainerOptions`; the
attach stream itself is a list of `Result<LogOutput, Error>` items, and the
wait subscription a list of `Result<ContainerWaitResponse, Error>` items. -/
structure Engine where
  attach : Bool → Bool → Except BollardError (List (Except BollardError LogOutput))
  start : Except BollardError Unit
  waitStream : List (Except BollardError ContainerWaitResponse)
  inspect : Except BollardError ContainerInspectResponse

/-- The `Container` handle: identity plus attachment flags
(the `client` field is the engine oracle, passed per call). -/
structure Container where
  name : String
  attach_stdout : Bool
  attach_stderr : Bool
deriving DecidableEq, Repr

/-- Compile-time platform selector for the `#[cfg(unix)]` /
`#[cfg(windows)]` blocks. -/
inductive Platform where
  | unix
  | windows
deriving DecidableEq, Repr

/-- Rust `as i32` on an `i64` value: truncate to 32 bits, two's complement. -/
def asI32 (n : Int) : Int := (n + 2 ^ 31) % 2 ^ 32 - 2 ^ 31

/-- Rust `as u32` on an `i64` value: truncate to 32 bits, unsigned. -/
def asU32 (n : Int) : Int := n % 2 ^ 32

/-- Rust `x << 8` on `i32`: multiply by 2^8, keep the low 32 bits. -/
def shlI32by8 (x : Int) : Int := asI32 (x * 2 ^ 8)

/-- The exit-status synthesis at the end of `Container::run`:
`ExitStatus::from_raw((exit_code.unwrap() as i32) << 8)` on unix,
`ExitStatus::from_raw(exit_code.unwrap() as u32)` on windows.
Returns the raw native status value held by the `ExitStatus`. -/
def exitStatusFromCode : Platform → Int → Int
  | .unix, code => shlI32by8 (asI32 code)
  | .windows, code => asU32 code

/-- `std::process::Output`: the value returned by a successful `run`.
`status` is the raw native exit-status value. -/
structure Output where
  status : Int
  stdout : Bytes
  stderr : Bytes
deriving DecidableEq, Repr

/-- The outcome of a `run` call: `Ok(Output)`, `Err(Error)`, or a panic
(the two `.expect` calls in the inspect fallback). -/
inductive RunOutcome where
  | ok (output : Output)
  | err (e : Error)
  | panicked (msg : String)
deriving DecidableEq, Repr

/-- Engine interactions of one `run` call, in issue order, used to state
the ordering guarantees. `attachContainer` records the options passed. -/
inductive Event where
  | attachContainer (stdout stderr stream : Bool)
  | startContainer
  | startedCallback
  | collectLogs
  | waitContainer
  | inspectContainer
deriving DecidableEq, Repr

/-- The `stream.try_fold` collecting the attached log stream into the
`(stdout, stderr)` buffer pair: `StdOut` chunks extend `stdout`, `StdErr`
chunks extend `stderr`, any other chunk is only traced; the first stream
error aborts the fold. -/
def collectOutput :
    List (Except BollardError LogOutput) → Bytes → Bytes →
    Except BollardError (Bytes × Bytes)
  | [], stdout, stderr => .ok (stdout, stderr)
  | .error e :: _, _, _ => .error e
  | .ok (.stdOut m) :: rest, stdout, stderr => collectOutput rest (stdout ++ m) stderr
  | .ok (.stdErr m) :: rest, stdout, stderr => collectOutput rest stdout (stderr ++ m)
  | .ok (.stdIn _) :: rest, stdout, stderr => collectOutput rest stdout stderr
  | .ok (.console _) :: rest, stdout, stderr => collectOutput rest stdout stderr

/-- `Container::run` (lines 100–208), as a function of the engine oracle
and the target platform. Returns the outcome together with the trace of
engine interactions (in issue order). Control flow mirrors the source:
attach, start, `started()` callback, log-collection fold, one
`wait_stream.next()` (accepting a normal response or a
`DockerContainerWaitError`, propagating any other error), and the inspect
fallback (whose missing state / missing exit code `.expect`s panic). -/
def Container.run (c : Container) (eng : Engine) (p : Platform) :
    RunOutcome × List Event :=
  let tr1 := [Event.attachContainer c.attach_stdout c.attach_stderr true]
  match eng.attach c.attach_stdout c.attach_stderr with
  | .error e => (.err (.docker e), tr1)
  | .ok stream =>
    let tr2 := tr1 ++ [Event.startContainer]
    match eng.start with
    | .error e => (.err (.docker e), tr2)
    | .ok _ =>
      let tr3 := tr2 ++ [Event.startedCallback, Event.collectLogs]
      match collectOutput stream [] [] with
      | .error e => (.err (.docker e), tr3)
      | .ok (stdout, stderr) =>
        let tr4 := tr3 ++ [Event.waitContainer]
        let finish := fun (code : Int) (tr : List Event) =>
          (RunOutcome.ok
            { status := exitStatusFromCode p code
              stdout := stdout
              stderr := stderr }, tr)
        match eng.waitStream.head? with
        | some (.ok resp) => finish resp.status_code tr4
        | some (.error (.dockerContainerWaitError _ code)) => finish code tr4
        | some (.error e) => (.err (.docker e), tr4)
        | none =>
          let tr5 := tr4 ++ [Event.inspectContainer]
          match eng.inspect with
          | .error e => (.err (.docker e), tr5)
          | .ok container =>
            match container.state with
            | none => (.panicked "Docker reported a container without a state", tr5)
            | some state =>
              match state.exit_code with
              | none =>
                (.panicked "Docker reported a finished contained without an exit code",
                  tr5)
              | some code => finish code tr5

/-- The full canonical interaction sequence of one `run` call; every
actual trace is an initial segment of this list. -/
def canonicalTrace (c : Container) : List Event :=
  [Event.attachContainer c.attach_stdout c.attach_stderr true,
   Event.startContainer, Event.startedCallback, Event.collectLogs,
   Event.waitContainer, Event.inspectContainer]

/-- `path.trim_start_matches("/")`: drop every leading `'/'` character. -/
def trimLeadingSlashes (s : String) : String :=
  (s.toList.dropWhile fun ch => ch = '/').asString

/-- One regular-file entry of the archive built by `upload_file`:
the metadata set on the `tar::Header` (path, mode, size) plus the body
bytes appended after it. -/
structure TarEntry where
  path : String
  mode : Nat
  size : Nat
  body : Bytes
deriving DecidableEq, Repr

/-- Oracle for the external `tar` crate's three fallible calls used by
`upload_file` (`Header::set_path`, `Builder::append_data`,
`Builder::into_inner`); each yields `Ok` or an error message. The archive
contents on success are determined by the arguments (a single entry), so
only the failure behaviour is abstract. -/
structure TarLib where
  set_path : String → Except String Unit
  append_data : TarEntry → Except String Unit
  into_inner : Except String Unit

/-- The request transmitted by `upload_to_container`: the container
identity, the extraction root (`UploadToContainerOptions.path`, other
options defaulted), and the archive body. -/
structure UploadRequest where
  container_name : String
  path : String
  archive : List TarEntry
deriving DecidableEq, Repr

/-- Outcome of a `Result<()>`-returning operation, with panics (the
`.unwrap()` calls) distinguished from returned errors. -/
inductive UnitOutcome where
  | ok
  | err (e : Error)
  | panicked (msg : String)
deriving DecidableEq, Repr

/-- `Container::upload_file` (lines 72–97): normalize the path by
stripping leading slashes, build a single-entry archive (mode `0o644`,
size `contents.len()`, body `contents`), and upload it with extraction
root `"/"`. Each fallible `tar` call is `.unwrap()`ed — a failure there
panics rather than returning an error. Returns the outcome together with
the list of upload requests transmitted to the engine. -/
def Container.upload_file (c : Container) (tarLib : TarLib)
    (eng : UploadRequest → Except BollardError Unit)
    (path : String) (contents : Bytes) : UnitOutcome × List UploadRequest :=
  let npath := trimLeadingSlashes path
  let entry : TarEntry :=
    { path := npath, mode := 0o644, size := contents.length, body := contents }
  match tarLib.set_path npath with
  | .error msg => (.panicked msg, [])
  | .ok _ =>
    match tarLib.append_data entry with
    | .error msg => (.panicked msg, [])
    | .ok _ =>
      match tarLib.into_inner with
      | .error msg => (.panicked msg, [])
      | .ok _ =>
        let req : UploadRequest := ⟨c.name, "/", [entry]⟩
        match eng req with
        | .ok _ => (.ok, [req])
        | .error e => (.err (.docker e), [req])

/-- The request issued by `remove_container`: the identity and the
`force` flag of `RemoveContainerOptions` (other options defaulted). -/
structure RemoveRequest where
  container_name : String
  force : Bool
deriving DecidableEq, Repr

/-- `Container::remove_inner` (lines 215–228): one `remove_container`
call against the identity with the given `force` flag; an engine error is
wrapped by `Error::Docker` and returned. Returns the result together with
the list of removal requests issued. -/
def Container.remove_inner (c : Container)
    (eng : RemoveRequest → Except BollardError Unit) (force : Bool) :
    Except Error Unit × List RemoveRequest :=
  let req : RemoveRequest := ⟨c.name, force⟩
  match eng req with
  | .ok _ => (.ok (), [req])
  | .error e => (.error (.docker e), [req])

/-- `Container::remove` (lines 234–237): `remove_inner(false)`. -/
def Container.remove (c : Container)
    (eng : RemoveRequest → Except BollardError Unit) :
    Except Error Unit × List RemoveRequest :=
  c.remove_inner eng false

/-- `Container::force_remove` (lines 243–246): `remove_inner(true)`. -/
def Container.force_remove (c : Container)
    (eng : RemoveRequest → Except BollardError Unit) :
    Except Error Unit × List RemoveRequest :=
  c.remove_inner eng true

/-! ## Spec-side definitions -/

/-- Spec-side, from the spec's words: the platform's own decoding
convention for a POSIX wait status (`ExitStatus::code()` on unix):
if the low 7 bits are zero the process exited normally (`WIFEXITED`)
and the exit code is `(status >> 8) & 0xff` (`WEXITSTATUS`). -/
def unixExitCodeOfStatus (raw : Int) : Option Int :=
  if raw % 2 ^ 7 = 0 then some ((raw / 2 ^ 8) % 2 ^ 8) else none

/-- Spec-side, for C5: the in-order concatenation of the bytes of all
chunks tagged standard-out. -/
def taggedStdout : List LogOutput → Bytes
  | [] => []
  | .stdOut m :: rest => m ++ taggedStdout rest
  | .stdIn _ :: rest => taggedStdout rest
  | .stdErr _ :: rest => taggedStdout rest
  | .console _ :: rest => taggedStdout rest

/-- Spec-side, for C5: the in-order concatenation of the bytes of all
chunks tagged standard-error. -/
def taggedStderr : List LogOutput → Bytes
  | [] => []
  | .stdErr m :: rest => m ++ taggedStderr rest
  | .stdIn _ :: rest => taggedStderr rest
  | .stdOut _ :: rest => taggedStderr rest
  | .console _ :: rest => taggedStderr rest

/-! ## Concrete fixtures used by the witness theorems -/

/-- A concrete container handle. -/
def wContainer : Container := ⟨"ctr", true, true⟩

/-- A concrete attached log stream: two stdout chunks, one stderr chunk,
and one console chunk (which the fold discards). -/
def wLogs : List LogOutput :=
  [.stdOut [104, 105], .stdErr [33], .console [7], .stdOut [10]]

/-- A concrete engine: attach and start succeed, the wait subscription
yields one normal completion with status code 7, and inspect reports a
state with exit code 7. -/
def wEngine : Engine where
  attach := fun _ _ => .ok (wLogs.map Except.ok)
  start := .ok ()
  waitStream := [.ok ⟨7⟩]
  inspect := .ok ⟨some ⟨some 7⟩⟩

/-- The engine of `wEngine` with an empty wait subscription and an
inspect response carrying exit code 5. -/
def wEngineInspect : Engine :=
  { wEngine with waitStream := [], inspect := .ok ⟨some ⟨some 5⟩⟩ }

/-- The engine of `wEngine` with a failing attach call. -/
def wEngineAttachErr : Engine :=
  { wEngine with attach := fun _ _ => .error (.other "connection reset") }

/-- A tar library oracle whose construction calls all succeed. -/
def wTarLib : TarLib := ⟨fun _ => .ok (), fun _ => .ok (), .ok ()⟩

/-- An upload endpoint that accepts every request. -/
def wUploadOk : UploadRequest → Except BollardError Unit := fun _ => .ok ()

/-- An upload endpoint that fails every request with a transport error. -/
def wUploadErr : UploadRequest → Except BollardError Unit :=
  fun _ => .error (.other "io failure")

/-- A removal endpoint that fails every request. -/
def wRemoveErr : RemoveRequest → Except BollardError Unit :=
  fun _ => .error (.other "no such container")

/-! ## Helper lemmas -/

/-- `asI32` only changes a value by a multiple of `2^32`. -/
lemma asI32_emod (n : Int) : asI32 n % 2 ^ 32 = n % 2 ^ 32 := by
  unfold asI32; omega

/-- `asI32` depends only on the value modulo `2^32`. -/
lemma asI32_congr {a b : Int} (h : a % 2 ^ 32 = b % 2 ^ 32) : asI32 a = asI32 b := by
  unfold asI32; omega

/-- The unix exit-status synthesis equals the 32-bit truncation of
`code * 2^8`: the inner `as i32` cast is absorbed by the outer shift's
truncation. -/
lemma exitStatusFromCode_unix_eq (code : Int) :
    exitStatusFromCode .unix code = asI32 (code * 2 ^ 8) := by
  show asI32 (asI32 code * 2 ^ 8) = asI32 (code * 2 ^ 8)
  refine asI32_congr ?_
  rw [Int.mul_emod, asI32_emod, ← Int.mul_emod]

/-- The log-collection fold on an error-free stream prepends the
accumulators to the in-order concatenations of the tagged chunk bytes. -/
lemma collectOutput_map_ok (logs : List LogOutput) (a b : Bytes) :
    collectOutput (logs.map Except.ok) a b =
      .ok (a ++ taggedStdout logs, b ++ taggedStderr logs) := by
  induction logs generalizing a b with
  | nil => simp [collectOutput, taggedStdout, taggedStderr]
  | cons hd tl ih =>
    cases hd <;>
      simp [collectOutput, taggedStdout, taggedStderr, ih, List.append_assoc]

/-- The normalized upload path never begins with a slash. -/
lemma trimLeadingSlashes_no_leading_slash (s : String) :
    (trimLeadingSlashes s).toList.head? ≠ some '/' := by
  unfold trimLeadingSlashes
  rw [List.toList_asString]
  induction s.toList with
  | nil => simp
  | cons hd tl ih =>
    by_cases h : hd = '/'
    · simpa [List.dropWhile_cons, h] using ih
    · simp [List.dropWhile_cons, h]

/-- The original path is a run of leading slashes followed by the
normalized path: `trim_start_matches("/")` strips exactly the leading
slashes and nothing else. -/
lemma trimLeadingSlashes_decomposition (s : String) :
    ∃ k, s.toList = List.replicate k '/' ++ (trimLeadingSlashes s).toList := by
  refine ⟨(s.toList.takeWhile fun ch => ch = '/').length, ?_⟩
  unfold trimLeadingSlashes
  rw [List.toList_asString]
  conv_lhs =>
    rw [← List.takeWhile_append_dropWhile (p := fun ch => decide (ch = '/'))
      (l := s.toList)]
  congr 1
  rw [← List.eq_replicate_length.2]
  intro b hb
  simpa using List.mem_takeWhile_imp hb

/-! ## Claim theorems -/

/-- C3 (amended): for every exit code `N` with `0 ≤ N ≤ 255`, on a
POSIX-style target the native exit status is `N` shifted left by 8 bits
and decoding it by the platform convention (`WIFEXITED`/`WEXITSTATUS`)
recovers `N`; on a non-POSIX target the native status value equals `N`
directly. (For codes outside `[0, 255]` the encoding truncates; see the
counterexample and C10.) -/
theorem exit_status_roundtrip (code : Int) (h0 : 0 ≤ code) (h255 : code ≤ 255) :
    exitStatusFromCode .unix code = code * 2 ^ 8 ∧
    unixExitCodeOfStatus (exitStatusFromCode .unix code) = some code ∧
    exitStatusFromCode .windows code = code := by
  have h1 : exitStatusFromCode .unix code = code * 2 ^ 8 := by
    rw [exitStatusFromCode_unix_eq]; unfold asI32; omega
  refine ⟨h1, ?_, ?_⟩
  · rw [h1]
    unfold unixExitCodeOfStatus
    rw [if_pos (by omega)]
    congr 1
    omega
  · show asU32 code = code
    unfold asU32
    omega

/-- C3 witness: the round trip at the concrete exit code 7. -/
theorem exit_status_roundtrip_witness :
    exitStatusFromCode .unix 7 = 7 * 2 ^ 8 ∧
    unixExitCodeOfStatus (exitStatusFromCode .unix 7) = some 7 ∧
    exitStatusFromCode .windows 7 = 7 :=
  exit_status_roundtrip 7 (by decide) (by decide)

/-- C3 counterexample: at exit code 256 the POSIX encoding shifts into
the truncated byte, and decoding by the platform convention yields 0,
not 256 — so decoding does not recover every code `run` can determine. -/
theorem exit_status_roundtrip_cx :
    exitStatusFromCode .unix 256 = 65536 ∧
    unixExitCodeOfStatus (exitStatusFromCode .unix 256) = some 0 ∧
    unixExitCodeOfStatus (exitStatusFromCode .unix 256) ≠ some 256 := by
  refine ⟨by decide, by decide, ?_⟩
  intro h
  simpa using h.symm.trans (by decide : unixExitCodeOfStatus (exitStatusFromCode .unix 256) = some 0)

/-- C10: the synthesized native status depends on the exit code only
modulo `2^32`: on POSIX targets it is the 32-bit truncation of the code
multiplied by `2^8` (so codes congruent modulo `2^24` collide), and on
non-POSIX targets it is the code reduced modulo `2^32` (so codes
congruent modulo `2^32` collide); exit codes outside those ranges are
not preserved exactly. -/
theorem exit_status_truncation (code : Int) :
    exitStatusFromCode .unix code = asI32 (code % 2 ^ 32 * 2 ^ 8) ∧
    exitStatusFromCode .unix (code + 2 ^ 24) = exitStatusFromCode .unix code ∧
    exitStatusFromCode .windows code = code % 2 ^ 32 ∧
    exitStatusFromCode .windows (code + 2 ^ 32) = exitStatusFromCode .windows code := by
  refine ⟨?_, ?_, rfl, ?_⟩
  · rw [exitStatusFromCode_unix_eq]
    exact asI32_congr (by omega)
  · rw [exitStatusFromCode_unix_eq, exitStatusFromCode_unix_eq]
    exact asI32_congr (by omega)
  · show asU32 (code + 2 ^ 32) = asU32 code
    unfold asU32
    omega

/-- C1: in `run`'s exit-status determination at most one event is taken
from the wait-event subscription (the outcome never depends on anything
past the first item), a normal completion response and a wrapped
container-wait error carrying the same code are treated identically (and
yield the exit status synthesized from that code together with the
collected output), and any other error shape is returned immediately. -/
theorem run_wait_event_shapes
    (c : Container) (eng : Engine) (p : Platform)
    (stream : List (Except BollardError LogOutput)) (stdout stderr : Bytes)
    (hAttach : eng.attach c.attach_stdout c.attach_stderr = .ok stream)
    (hStart : eng.start = .ok ())
    (hCollect : collectOutput stream [] [] = .ok (stdout, stderr)) :
    (∀ w rest rest',
      Container.run c { eng with waitStream := w :: rest } p =
        Container.run c { eng with waitStream := w :: rest' } p) ∧
    (∀ code msg rest rest',
      Container.run c { eng with waitStream := .ok ⟨code⟩ :: rest } p =
        Container.run c { eng with waitStream :=
          (.error (.dockerContainerWaitError msg code) :: rest') } p) ∧
    (∀ code rest,
      (Container.run c { eng with waitStream := .ok ⟨code⟩ :: rest } p).1 =
        .ok ⟨exitStatusFromCode p code, stdout, stderr⟩) ∧
    (∀ msg rest,
      (Container.run c { eng with waitStream := .error (.other msg) :: rest } p).1 =
        .err (.docker (.other msg))) := by
  refine ⟨?_, ?_, ?_, ?_⟩
  · intro w rest rest'
    rcases w with resp | e
    · simp [Container.run, hAttach, hStart, hCollect]
    · rcases e with ⟨msg, code⟩ | msg <;>
        simp [Container.run, hAttach, hStart, hCollect]
  · intro code msg rest rest'
    simp [Container.run, hAttach, hStart, hCollect]
  · intro code rest
    simp [Container.run, hAttach, hStart, hCollect]
  · intro msg rest
    simp [Container.run, hAttach, hStart, hCollect]

/-- C2: when the wait-event subscription yields no event, `run` falls
back to exactly one inspect call: an inspect error propagates, a state
carrying an exit code yields that code's exit status, and a response
with no state — or a state with no exit code — panics (an unrecoverable
failure, not an exit status defaulted to zero). -/
theorem run_inspect_fallback
    (c : Container) (eng : Engine) (p : Platform)
    (stream : List (Except BollardError LogOutput)) (stdout stderr : Bytes)
    (hAttach : eng.attach c.attach_stdout c.attach_stderr = .ok stream)
    (hStart : eng.start = .ok ())
    (hCollect : collectOutput stream [] [] = .ok (stdout, stderr))
    (hWait : eng.waitStream = []) :
    ((Container.run c eng p).2.count Event.inspectContainer = 1) ∧
    (∀ e, eng.inspect = .error e →
      (Container.run c eng p).1 = .err (.docker e)) ∧
    (∀ code, eng.inspect = .ok ⟨some ⟨some code⟩⟩ →
      (Container.run c eng p).1 =
        .ok ⟨exitStatusFromCode p code, stdout, stderr⟩) ∧
    (eng.inspect = .ok ⟨none⟩ →
      (Container.run c eng p).1 =
        .panicked "Docker reported a container without a state") ∧
    (eng.inspect = .ok ⟨some ⟨none⟩⟩ →
      (Container.run c eng p).1 =
        .panicked "Docker reported a finished contained without an exit code") := by
  refine ⟨?_, ?_, ?_, ?_, ?_⟩
  · rcases hI : eng.inspect with e | container
    · simp [Container.run, hAttach, hStart, hCollect, hWait, hI]
    · rcases container with ⟨_ | ⟨_ | code⟩⟩ <;>
        simp [Container.run, hAttach, hStart, hCollect, hWait, hI]
  · intro e hI
    simp [Container.run, hAttach, hStart, hCollect, hWait, hI]
  · intro code hI
    simp [Container.run, hAttach, hStart, hCollect, hWait, hI]
  · intro hI
    simp [Container.run, hAttach, hStart, hCollect, hWait, hI]
  · intro hI
    simp [Container.run, hAttach, hStart, hCollect, hWait, hI]

/-- C4: the interactions of one `run` call are strictly ordered — every
trace is an initial segment of attach, start, started-callback,
collection, wait, inspect; an attach failure aborts before start is
attempted; a start failure aborts before the callback fires; and on a
successful run the callback fires exactly once, after start and before
the log collection whose bytes the caller observes. -/
theorem run_ordering (c : Container) (eng : Engine) (p : Platform) :
    (∃ remainder, (Container.run c eng p).2 ++ remainder = canonicalTrace c) ∧
    (∀ e, eng.attach c.attach_stdout c.attach_stderr = .error e →
      (Container.run c eng p).2 =
        [Event.attachContainer c.attach_stdout c.attach_stderr true]) ∧
    (∀ stream e, eng.attach c.attach_stdout c.attach_stderr = .ok stream →
      eng.start = .error e →
      (Container.run c eng p).2 =
        [Event.attachContainer c.attach_stdout c.attach_stderr true,
         Event.startContainer]) ∧
    (∀ o, (Container.run c eng p).1 = .ok o →
      (Container.run c eng p).2.take 4 =
        [Event.attachContainer c.attach_stdout c.attach_stderr true,
         Event.startContainer, Event.startedCallback, Event.collectLogs] ∧
      (Container.run c eng p).2.count Event.startedCallback = 1) := by
  refine ⟨?_, ?_, ?_, ?_⟩
  · rcases hA : eng.attach c.attach_stdout c.attach_stderr with e | stream
    · exact ⟨[Event.startContainer, Event.startedCallback, Event.collectLogs,
        Event.waitContainer, Event.inspectContainer],
        by simp [Container.run, hA, canonicalTrace]⟩
    rcases hS : eng.start with e | u
    · exact ⟨[Event.startedCallback, Event.collectLogs, Event.waitContainer,
        Event.inspectContainer], by simp [Container.run, hA, hS, canonicalTrace]⟩
    rcases hC : collectOutput stream [] [] with e | ⟨stdout, stderr⟩
    · exact ⟨[Event.waitContainer, Event.inspectContainer],
        by simp [Container.run, hA, hS, hC, canonicalTrace]⟩
    rcases hW : eng.waitStream with _ | ⟨w, rest⟩
    · rcases hI : eng.inspect with e | container
      · exact ⟨[], by simp [Container.run, hA, hS, hC, hW, hI, canonicalTrace]⟩
      · rcases container with ⟨_ | ⟨_ | code⟩⟩ <;>
          exact ⟨[], by simp [Container.run, hA, hS, hC, hW, hI, canonicalTrace]⟩
    · rcases w with e | resp
      · rcases e with ⟨msg, code⟩ | msg <;>
          exact ⟨[Event.inspectContainer],
            by simp [Container.run, hA, hS, hC, hW, canonicalTrace]⟩
      · exact ⟨[Event.inspectContainer],
          by simp [Container.run, hA, hS, hC, hW, canonicalTrace]⟩
  · intro e hA
    simp [Container.run, hA]
  · intro stream e hA hS
    simp [Container.run, hA, hS]
  · intro o ho
    rcases hA : eng.attach c.attach_stdout c.attach_stderr with e | stream
    · simp [Container.run, hA] at ho
    rcases hS : eng.start with e | u
    · simp [Container.run, hA, hS] at ho
    rcases hC : collectOutput stream [] [] with e | ⟨stdout, stderr⟩
    · simp [Container.run, hA, hS, hC] at ho
    rcases hW : eng.waitStream with _ | ⟨w, rest⟩
    · rcases hI : eng.inspect with e | container
      · simp [Container.run, hA, hS, hC, hW, hI] at ho
      · rcases container with ⟨_ | ⟨_ | code⟩⟩
        · simp [Container.run, hA, hS, hC, hW, hI] at ho
        · simp [Container.run, hA, hS, hC, hW, hI] at ho
        · constructor <;> simp [Container.run, hA, hS, hC, hW, hI, List.count_cons]
    · rcases w with e | resp
      · rcases e with ⟨msg, code⟩ | msg
        · constructor <;> simp [Container.run, hA, hS, hC, hW, List.count_cons]
        · simp [Container.run, hA, hS, hC, hW] at ho
      · constructor <;> simp [Container.run, hA, hS, hC, hW, List.count_cons]

/-- C5: the collection fold sends each standard-out chunk to the stdout
buffer and each standard-error chunk to the stderr buffer in stream
order, discarding chunks with any other tag, so on an error-free stream
`run` returns exactly the in-order concatenations of the
correspondingly tagged chunk bytes. -/
theorem run_collects_tagged_output
    (c : Container) (eng : Engine) (p : Platform) (logs : List LogOutput)
    (code : Int) (rest : List (Except BollardError ContainerWaitResponse))
    (hAttach : eng.attach c.attach_stdout c.attach_stderr =
      .ok (logs.map Except.ok))
    (hStart : eng.start = .ok ())
    (hWait : eng.waitStream = .ok ⟨code⟩ :: rest) :
    (∀ a b, collectOutput (logs.map Except.ok) a b =
      .ok (a ++ taggedStdout logs, b ++ taggedStderr logs)) ∧
    (Container.run c eng p).1 =
      .ok ⟨exitStatusFromCode p code, taggedStdout logs, taggedStderr logs⟩ := by
  refine ⟨fun a b => collectOutput_map_ok logs a b, ?_⟩
  simp [Container.run, hAttach, hStart, hWait, collectOutput_map_ok]

/-- C7: every fallible step of `run` propagates its failure immediately
(attach, start, a transport error during collection, an unacceptable
wait-stream error, inspect), and a successful outcome only arises from a
fully successful collection whose buffers are returned whole — an error
outcome carries no partial bytes (`RunOutcome.err` has no byte fields). -/
theorem run_error_propagation (c : Container) (eng : Engine) (p : Platform) :
    (∀ e, eng.attach c.attach_stdout c.attach_stderr = .error e →
      (Container.run c eng p).1 = .err (.docker e)) ∧
    (∀ stream e, eng.attach c.attach_stdout c.attach_stderr = .ok stream →
      eng.start = .error e →
      (Container.run c eng p).1 = .err (.docker e)) ∧
    (∀ stream e, eng.attach c.attach_stdout c.attach_stderr = .ok stream →
      eng.start = .ok () → collectOutput stream [] [] = .error e →
      (Container.run c eng p).1 = .err (.docker e)) ∧
    (∀ stream stdout stderr msg rest,
      eng.attach c.attach_stdout c.attach_stderr = .ok stream →
      eng.start = .ok () → collectOutput stream [] [] = .ok (stdout, stderr) →
      eng.waitStream = .error (.other msg) :: rest →
      (Container.run c eng p).1 = .err (.docker (.other msg))) ∧
    (∀ stream stdout stderr e,
      eng.attach c.attach_stdout c.attach_stderr = .ok stream →
      eng.start = .ok () → collectOutput stream [] [] = .ok (stdout, stderr) →
      eng.waitStream = [] → eng.inspect = .error e →
      (Container.run c eng p).1 = .err (.docker e)) ∧
    (∀ o, (Container.run c eng p).1 = .ok o →
      ∃ stream stdout stderr,
        eng.attach c.attach_stdout c.attach_stderr = .ok stream ∧
        eng.start = .ok () ∧
        collectOutput stream [] [] = .ok (stdout, stderr) ∧
        o.stdout = stdout ∧ o.stderr = stderr) := by
  refine ⟨?_, ?_, ?_, ?_, ?_, ?_⟩
  · intro e hA
    simp [Container.run, hA]
  · intro stream e hA hS
    simp [Container.run, hA, hS]
  · intro stream e hA hS hC
    simp [Container.run, hA, hS, hC]
  · intro stream stdout stderr msg rest hA hS hC hW
    simp [Container.run, hA, hS, hC, hW]
  · intro stream stdout stderr e hA hS hC hW hI
    simp [Container.run, hA, hS, hC, hW, hI]
  · intro o ho
    rcases hA : eng.attach c.attach_stdout c.attach_stderr with e | stream
    · simp [Container.run, hA] at ho
    rcases hS : eng.start with e | u
    · simp [Container.run, hA, hS] at ho
    rcases hC : collectOutput stream [] [] with e | ⟨stdout, stderr⟩
    · simp [Container.run, hA, hS, hC] at ho
    refine ⟨stream, stdout, stderr, rfl, rfl, hC, ?_⟩
    rcases hW : eng.waitStream with _ | ⟨w, rest⟩
    · rcases hI : eng.inspect with e | container
      · simp [Container.run, hA, hS, hC, hW, hI] at ho
      · rcases container with ⟨_ | ⟨_ | code⟩⟩
        · simp [Container.run, hA, hS, hC, hW, hI] at ho
        · simp [Container.run, hA, hS, hC, hW, hI] at ho
        · simp [Container.run, hA, hS, hC, hW, hI] at ho
          subst ho
          simp
    · rcases w with e | resp
      · rcases e with ⟨msg, code⟩ | msg
        · simp [Container.run, hA, hS, hC, hW] at ho
          subst ho
          simp
        · simp [Container.run, hA, hS, hC, hW] at ho
      · simp [Container.run, hA, hS, hC, hW] at ho
        subst ho
        simp

/-- C6: when the pure archive-construction calls succeed, `upload_file`
strips all leading slashes from the path (the original path is a run of
slashes followed by the normalized path, which never starts with one),
transmits exactly one upload request containing a single regular-file
entry at the normalized path with mode `0o644`, size `len(contents)` and
body `contents`, addressed to this container's identity with extraction
root `"/"`, and its outcome is the engine's response to that request. -/
theorem upload_file_single_entry
    (c : Container) (tarLib : TarLib)
    (eng : UploadRequest → Except BollardError Unit)
    (path : String) (contents : Bytes)
    (hSet : tarLib.set_path (trimLeadingSlashes path) = .ok ())
    (hAppend : tarLib.append_data
      ⟨trimLeadingSlashes path, 0o644, contents.length, contents⟩ = .ok ())
    (hInner : tarLib.into_inner = .ok ()) :
    (Container.upload_file c tarLib eng path contents).2 =
      [⟨c.name, "/",
        [⟨trimLeadingSlashes path, 0o644, contents.length, contents⟩]⟩] ∧
    (∃ k, path.toList =
      List.replicate k '/' ++ (trimLeadingSlashes path).toList) ∧
    (trimLeadingSlashes path).toList.head? ≠ some '/' ∧
    (eng ⟨c.name, "/",
        [⟨trimLeadingSlashes path, 0o644, contents.length, contents⟩]⟩ = .ok () →
      (Container.upload_file c tarLib eng path contents).1 = .ok) ∧
    (∀ e, eng ⟨c.name, "/",
        [⟨trimLeadingSlashes path, 0o644, contents.length, contents⟩]⟩ = .error e →
      (Container.upload_file c tarLib eng path contents).1 = .err (.docker e)) := by
  refine ⟨?_, trimLeadingSlashes_decomposition path,
    trimLeadingSlashes_no_leading_slash path, ?_, ?_⟩
  · rcases hE : eng ⟨c.name, "/",
      [⟨trimLeadingSlashes path, 0o644, contents.length, contents⟩]⟩ with e | u <;>
      simp [Container.upload_file, hSet, hAppend, hInner, hE]
  · intro hE
    simp [Container.upload_file, hSet, hAppend, hInner, hE]
  · intro e hE
    simp [Container.upload_file, hSet, hAppend, hInner, hE]

/-- C8: `upload_file` reports only engine/transport errors: every
returned error outcome is the engine's failure at the single-entry
upload request, while a failure of any of the three archive-construction
calls (`set_path`, `append_data`, `into_inner`) panics — a
programming-contract violation, not a returned error — and transmits
nothing. -/
theorem upload_file_errors_only_from_transmission
    (c : Container) (tarLib : TarLib)
    (eng : UploadRequest → Except BollardError Unit)
    (path : String) (contents : Bytes) :
    (∀ e, (Container.upload_file c tarLib eng path contents).1 = .err e →
      ∃ be, e = .docker be ∧
        eng ⟨c.name, "/",
          [⟨trimLeadingSlashes path, 0o644, contents.length, contents⟩]⟩ =
            .error be) ∧
    (∀ msg, tarLib.set_path (trimLeadingSlashes path) = .error msg →
      (Container.upload_file c tarLib eng path contents).1 = .panicked msg ∧
      (Container.upload_file c tarLib eng path contents).2 = []) ∧
    (∀ msg, tarLib.set_path (trimLeadingSlashes path) = .ok () →
      tarLib.append_data
        ⟨trimLeadingSlashes path, 0o644, contents.length, contents⟩ = .error msg →
      (Container.upload_file c tarLib eng path contents).1 = .panicked msg ∧
      (Container.upload_file c tarLib eng path contents).2 = []) ∧
    (∀ msg, tarLib.set_path (trimLeadingSlashes path) = .ok () →
      tarLib.append_data
        ⟨trimLeadingSlashes path, 0o644, contents.length, contents⟩ = .ok () →
      tarLib.into_inner = .error msg →
      (Container.upload_file c tarLib eng path contents).1 = .panicked msg ∧
      (Container.upload_file c tarLib eng path contents).2 = []) := by
  refine ⟨?_, ?_, ?_, ?_⟩
  · intro e he
    rcases hSet : tarLib.set_path (trimLeadingSlashes path) with msg | u
    · simp [Container.upload_file, hSet] at he
    rcases hAppend : tarLib.append_data
        ⟨trimLeadingSlashes path, 0o644, contents.length, contents⟩ with msg | u
    · simp [Container.upload_file, hSet, hAppend] at he
    rcases hInner : tarLib.into_inner with msg | u
    · simp [Container.upload_file, hSet, hAppend, hInner] at he
    rcases hE : eng ⟨c.name, "/",
        [⟨trimLeadingSlashes path, 0o644, contents.length, contents⟩]⟩ with be | u
    · refine ⟨be, ?_, rfl⟩
      simp [Container.upload_file, hSet, hAppend, hInner, hE] at he
      simp [← he]
    · simp [Container.upload_file, hSet, hAppend, hInner, hE] at he
  · intro msg hSet
    constructor <;> simp [Container.upload_file, hSet]
  · intro msg hSet hAppend
    constructor <;> simp [Container.upload_file, hSet, hAppend]
  · intro msg hSet hAppend hInner
    constructor <;> simp [Container.upload_file, hSet, hAppend, hInner]

/-- C9: `remove()` and `force_remove()` both delegate to `remove_inner`,
issuing exactly one removal request against the identity — with
`force = false` and `force = true` respectively, no retry — and the
engine's response (success or error) is surfaced as is. -/
theorem remove_operations (c : Container)
    (eng : RemoveRequest → Except BollardError Unit) :
    c.remove eng = c.remove_inner eng false ∧
    c.force_remove eng = c.remove_inner eng true ∧
    (c.remove eng).2 = [⟨c.name, false⟩] ∧
    (c.force_remove eng).2 = [⟨c.name, true⟩] ∧
    (∀ e, eng ⟨c.name, false⟩ = .error e →
      (c.remove eng).1 = .error (.docker e)) ∧
    (∀ e, eng ⟨c.name, true⟩ = .error e →
      (c.force_remove eng).1 = .error (.docker e)) ∧
    (eng ⟨c.name, false⟩ = .ok () → (c.remove eng).1 = .ok ()) ∧
    (eng ⟨c.name, true⟩ = .ok () → (c.force_remove eng).1 = .ok ()) := by
  refine ⟨rfl, rfl, ?_, ?_, ?_, ?_, ?_, ?_⟩
  · rcases hE : eng ⟨c.name, false⟩ with e | u <;>
      simp [Container.remove, Container.remove_inner, hE]
  · rcases hE : eng ⟨c.name, true⟩ with e | u <;>
      simp [Container.force_remove, Container.remove_inner, hE]
  · intro e hE
    simp [Container.remove, Container.remove_inner, hE]
  · intro e hE
    simp [Container.force_remove, Container.remove_inner, hE]
  · intro hE
    simp [Container.remove, Container.remove_inner, hE]
  · intro hE
    simp [Container.force_remove, Container.remove_inner, hE]

/-- C1 witness: a normal completion event with code 7 yields the
synthesized exit status together with the collected buffers. -/
theorem run_wait_event_shapes_witness :
    (Container.run wContainer { wEngine with waitStream := [Except.ok ⟨7⟩] }
        Platform.unix).1 =
      .ok ⟨exitStatusFromCode Platform.unix 7, [104, 105, 10], [33]⟩ :=
  (run_wait_event_shapes wContainer wEngine Platform.unix (wLogs.map Except.ok)
    [104, 105, 10] [33] rfl rfl rfl).2.2.1 7 []

/-- C2 witness: with an empty wait subscription, the exit code comes
from the inspect response (code 5). -/
theorem run_inspect_fallback_witness :
    (Container.run wContainer wEngineInspect Platform.unix).1 =
      .ok ⟨exitStatusFromCode Platform.unix 5, [104, 105, 10], [33]⟩ :=
  (run_inspect_fallback wContainer wEngineInspect Platform.unix
    (wLogs.map Except.ok) [104, 105, 10] [33] rfl rfl rfl rfl).2.2.1 5 rfl

/-- C4 witness: on the concrete successful run the trace starts with
attach, start, callback, collection, and the callback fires once. -/
theorem run_ordering_witness :
    (Container.run wContainer wEngine Platform.unix).2.take 4 =
      [Event.attachContainer wContainer.attach_stdout wContainer.attach_stderr true,
       Event.startContainer, Event.startedCallback, Event.collectLogs] ∧
    (Container.run wContainer wEngine Platform.unix).2.count
      Event.startedCallback = 1 :=
  (run_ordering wContainer wEngine Platform.unix).2.2.2
    ⟨exitStatusFromCode Platform.unix 7, [104, 105, 10], [33]⟩ rfl

/-- C5 witness: the concrete run returns exactly the concatenated
stdout-tagged and stderr-tagged chunk bytes. -/
theorem run_collects_tagged_output_witness :
    (Container.run wContainer wEngine Platform.unix).1 =
      .ok ⟨exitStatusFromCode Platform.unix 7, taggedStdout wLogs,
        taggedStderr wLogs⟩ :=
  (run_collects_tagged_output wContainer wEngine Platform.unix wLogs 7 []
    rfl rfl rfl).2

/-- C6 witness: uploading `[1, 2, 3]` to `"//etc/conf"` transmits one
single-entry archive at the slash-stripped path with root `"/"`. -/
theorem upload_file_single_entry_witness :
    (Container.upload_file wContainer wTarLib wUploadOk "//etc/conf"
        [1, 2, 3]).2 =
      [⟨wContainer.name, "/",
        [⟨trimLeadingSlashes "//etc/conf", 0o644, 3, [1, 2, 3]⟩]⟩] :=
  (upload_file_single_entry wContainer wTarLib wUploadOk "//etc/conf" [1, 2, 3]
    rfl rfl rfl).1

/-- C7 witness: an attach failure is returned as that engine error. -/
theorem run_error_propagation_witness :
    (Container.run wContainer wEngineAttachErr Platform.unix).1 =
      .err (.docker (.other "connection reset")) :=
  (run_error_propagation wContainer wEngineAttachErr Platform.unix).1
    (.other "connection reset") rfl

/-- C8 witness: the error returned for a failing transmission is exactly
the engine's transport error at the single-entry request. -/
theorem upload_file_errors_only_from_transmission_witness :
    ∃ be, Error.docker (.other "io failure") = Error.docker be ∧
      wUploadErr ⟨wContainer.name, "/",
        [⟨trimLeadingSlashes "//etc/conf", 0o644, 3, [1, 2, 3]⟩]⟩ = .error be :=
  (upload_file_errors_only_from_transmission wContainer wTarLib wUploadErr
    "//etc/conf" [1, 2, 3]).1 (.docker (.other "io failure")) rfl

/-- C9 witness: a failing removal surfaces the engine error wrapped as a
Docker error, with no retry. -/
theorem remove_operations_witness :
    (wContainer.remove wRemoveErr).1 =
      .error (.docker (.other "no such container")) :=
  (remove_operations wContainer wRemoveErr).2.2.2.2.1
    (.other "no such container") rfl

end Crankshaft
